import Mathlib

/-!
Verification of the zk-cp-proof repository (a Chaum–Pedersen zero-knowledge
proof system written in Rust) against its natural-language specification.

The development shallowly embeds the relevant Rust code:

* `src/protocol/src/protocol/cp.rs` — the protocol state machine
  (namespace `CP`).  Rust `BigInt` values are embedded as `Int`;
  `BigInt::modpow` (whose result lies in `[0, m)` for a positive modulus
  `m`) is embedded as `Int.emod` of a power.  Every modulus appearing in
  the protocol is positive.
* `src/material/src/infrastructure/generator.rs` — the group-material
  generator (namespace `Gen`).  Rust `BigUint` values are embedded as
  `Nat`; the sources of randomness (the sampled candidate generator
  pairs) are passed in explicitly as a list of candidates, and the
  wall-clock timeout of the search loop is represented by exhaustion of
  that candidate list.
* `src/verifier/src/application/handler.rs` together with
  `src/verifier/src/infrastructure/mem_storage.rs` — the verifier
  session logic (namespace `Verifier`), embedded as a small deep-embedded
  effect language over the storage/registry collaborators, with
  interpreters that run it against an in-memory state (recording the
  collaborator calls performed) and against fallible collaborator
  oracles.
-/

namespace CP

/-- `BigInt::modpow(base, exp, m)`: `base ^ exp mod m`, with the result in
`[0, m)` for `m > 0` (embedded with `Int.emod`; all moduli used by the
protocol are positive).  Exponents in the protocol are non-negative. -/
def modpow (b e m : Int) : Int := b ^ e.toNat % m

/-- `Material` from `cp.rs` (fields `g`, `h`, `q`, `p`, all `BigInt`). -/
structure Material where
  g : Int
  h : Int
  q : Int
  p : Int
deriving DecidableEq, Repr

/-- `Register` from `cp.rs`. -/
structure Register where
  material : Material
  y1 : Int
  y2 : Int
deriving DecidableEq, Repr

/-- `Register::new(material, x)`: `y1 = g.modpow(x, p)`, `y2 = h.modpow(x, p)`
(cp.rs lines 34–40). -/
def Register.new (material : Material) (x : Int) : Register :=
  { material := material
    y1 := modpow material.g x material.p
    y2 := modpow material.h x material.p }

/-- `Challenge` from `cp.rs` (`auth_id`, `c`). -/
structure Challenge where
  auth_id : String
  c : Int
deriving DecidableEq, Repr

/-- `ChallengeResponse` from `cp.rs`. -/
structure ChallengeResponse where
  challenge : Challenge
  material : Material
  x : Int
  k : Int
deriving DecidableEq, Repr

/-- `VerificationRequest` from `cp.rs`. -/
structure VerificationRequest where
  auth_id : String
  s : Int
deriving DecidableEq, Repr

/-- `VerificationResult` from `cp.rs`. -/
inductive VerificationResult where
  | ChallengeVerifiedSuccess
  | ChallengeVerificationFailed
deriving DecidableEq, Repr

/-- `Commitment` from `cp.rs`. -/
structure Commitment where
  material : Material
  r1 : Int
  r2 : Int
  k : Int
deriving DecidableEq, Repr

/-- `Verification` from `cp.rs`. -/
structure Verification where
  material : Material
  y1 : Int
  y2 : Int
  r1 : Int
  r2 : Int
  c : Int
  s : Int
deriving DecidableEq, Repr

/-- `ProtocolState<Register>::change` (cp.rs lines 218–234): commits with a
fresh random `k` (sampled by `gen_bigint_range(2, q - 2)` in the source; the
sample is passed in explicitly here): `r1 = g.modpow(k, p)`,
`r2 = h.modpow(k, p)`. -/
def Register.change (self : Register) (k : Int) : Commitment :=
  { material := self.material
    r1 := modpow self.material.g k self.material.p
    r2 := modpow self.material.h k self.material.p
    k := k }

/-- `ProtocolState<Material>::change` (cp.rs lines 236–248): issues a
challenge with a fresh random `c` (sampled by `gen_bigint_range(2, q - 1)`)
and a fresh `auth_id` (both passed in explicitly here). -/
def Material.change (_ : Material) (auth_id : String) (c : Int) : Challenge :=
  { auth_id := auth_id, c := c }

/-- `ProtocolState<ChallengeResponse>::change` (cp.rs lines 250–271):
`s = (k - c*x).modpow(1, q)` when `k > c*x`, else `s = q - (c*x - k).modpow(1, q)`. -/
def ChallengeResponse.change (self : ChallengeResponse) : VerificationRequest :=
  let c := self.challenge.c
  let q := self.material.q
  let k := self.k
  let cx := c * self.x
  let s := if k > cx then modpow (k - cx) 1 q else q - modpow (cx - k) 1 q
  { auth_id := self.challenge.auth_id, s := s }

/-- `ProtocolState<Verification>::change` (cp.rs lines 273–303):
`r1' = (g.modpow(s, p) * y1.modpow(c, p)).modpow(1, p)` and likewise `r2'`;
success iff `r1 == r1'` and `r2 == r2'`. -/
def Verification.change (self : Verification) : VerificationResult :=
  let g := self.material.g
  let h := self.material.h
  let p := self.material.p
  let r1_prime := modpow (modpow g self.s p * modpow self.y1 self.c p) 1 p
  let r2_prime := modpow (modpow h self.s p * modpow self.y2 self.c p) 1 p
  if self.r1 = r1_prime ∧ self.r2 = r2_prime then
    .ChallengeVerifiedSuccess
  else
    .ChallengeVerificationFailed

/-- `g` has multiplicative order exactly `q` modulo `p`: `g^q mod p = 1` and
no positive exponent smaller than `q` raises `g` to `1` modulo `p`. -/
def ordExactly (g q p : Int) : Prop :=
  modpow g q p = 1 ∧ ∀ e : Nat, e < q.toNat → 0 < e → modpow g (e : Int) p ≠ 1

instance (g q p : Int) : Decidable (ordExactly g q p) := by
  unfold ordExactly; infer_instance


/-!
Embedding of `MaterialSerde` (cp.rs lines 94–122).  The radix-16 strings
produced by `BigInt::to_str_radix(16)` and consumed by
`BigInt::parse_bytes(_, 16)` are embedded as `List Char`.
-/

/-- The radix-16 digit character for `d < 16` (lowercase, as
`to_str_radix` produces). -/
def hexChar (d : Nat) : Char :=
  if d < 10 then Char.ofNat (48 + d) else Char.ofNat (87 + d)

/-- `BigUint`-style radix-16 rendering of a natural number:
most-significant digit first, no leading zeros, `"0"` for zero. -/
def natToHex (n : Nat) : List Char :=
  if n = 0 then ['0'] else ((Nat.digits 16 n).map hexChar).reverse

/-- The numeric value of one radix-16 digit character (`parse_bytes`
accepts both cases). -/
def hexVal (ch : Char) : Option Nat :=
  if 48 ≤ ch.toNat ∧ ch.toNat ≤ 57 then some (ch.toNat - 48)
  else if 97 ≤ ch.toNat ∧ ch.toNat ≤ 102 then some (ch.toNat - 87)
  else if 65 ≤ ch.toNat ∧ ch.toNat ≤ 70 then some (ch.toNat - 55)
  else none

/-- One accumulation step of radix-16 parsing. -/
def hexFold (acc : Option Nat) (ch : Char) : Option Nat :=
  acc.bind fun a => (hexVal ch).map fun d => a * 16 + d

/-- Radix-16 parsing of a digit string into a natural number (`none` on an
empty string or any non-digit character, as `parse_bytes` returns `None`). -/
def parseHexNat (l : List Char) : Option Nat :=
  if l.isEmpty then none else l.foldl hexFold (some 0)

/-- `BigInt::to_str_radix(16)`: sign followed by the magnitude's digits. -/
def to_str_radix (i : Int) : List Char :=
  if i < 0 then '-' :: natToHex i.natAbs else natToHex i.toNat

/-- `BigInt::parse_bytes(_, 16)`: optional leading `'-'`, then radix-16
digits. -/
def parse_bytes (l : List Char) : Option Int :=
  if l.head? = some '-' then (parseHexNat l.tail).map fun n => -(n : Int)
  else (parseHexNat l).map fun n => (n : Int)

/-- `MaterialSerde` from `cp.rs` (fields `user`, `g`, `h`, `q`, `p`; the
numeric fields are radix-16 strings). -/
structure MaterialSerde where
  user : String
  g : List Char
  h : List Char
  q : List Char
  p : List Char
deriving DecidableEq, Repr

/-- `MaterialSerde::from_material` (cp.rs lines 104–112). -/
def MaterialSerde.from_material (material : Material) (user : String) :
    MaterialSerde :=
  { user := user
    g := to_str_radix material.g
    h := to_str_radix material.h
    q := to_str_radix material.q
    p := to_str_radix material.p }

/-- `MaterialSerde::to_material` (cp.rs lines 114–122); the `unwrap` panic
on an unparseable field is embedded as `none`. -/
def MaterialSerde.to_material (self : MaterialSerde) : Option Material := do
  let g ← parse_bytes self.g
  let h ← parse_bytes self.h
  let q ← parse_bytes self.q
  let p ← parse_bytes self.p
  return { g := g, h := h, q := q, p := p }


end CP

namespace Gen

/-!
Embedding of `src/material/src/infrastructure/generator.rs`.  `BigUint`
values are embedded as `Nat`.  The error values (`anyhow` strings in the
source) are embedded as an inductive type, one constructor per distinct
error site.  The random samples drawn by `generate_group` are passed in
explicitly; the search loop racing the 10-second timeout is embedded as a
walk over an explicit finite list of sampled candidate pairs, exhaustion
of the list standing for the timeout. -/

/-- Error values of the generator, one constructor per error site:
`"Element {e} is not a generator"`, `"Order is not a u128"`,
`"q and p cannot be the same"`, `"Order {n} is not prime"`,
`"Timeout in generating group"`. -/
inductive GenError where
  | notAGenerator
  | orderNotU128
  | qEqualsP
  | notPrime (n : Nat)
  | timeout
deriving DecidableEq, Repr

/-- The loop body of `verify_generator` (generator.rs lines 14–22), iterated
`n` times: `last = last.modpow(2, order)`, failing when the updated `last`
is `1` or `0`.  NOTE: the source squares modulo `order` (the subgroup order
`q`), not modulo `p`. -/
def squareChain : Nat → Nat → Nat → Except GenError Unit
  | 0, _, _ => .ok ()
  | n + 1, last, order =>
      let next := last ^ 2 % order
      if next = 1 ∨ next = 0 then .error .notAGenerator
      else squareChain n next order

/-- `verify_generator(element, order)` (generator.rs lines 9–29): converts
`order` to `u128` (failing if it does not fit), then runs the squaring loop
`order - 1` times counting the produced values; the final `count != limit`
check fails exactly when `order = 0` (empty loop leaves `count = 1`). -/
def verify_generator (element order : Nat) : Except GenError Unit :=
  if 2 ^ 128 ≤ order then .error .orderNotU128
  else if order = 0 then .error .notAGenerator
  else squareChain (order - 1) element order

/-- `verify_prime(order)` (generator.rs lines 31–37): `num_primes`'
primality verification, embedded as mathematical primality. -/
def verify_prime (order : Nat) : Except GenError Unit :=
  if Nat.Prime order then .ok () else .error (.notPrime order)

/-- `generate_group(q, limit)` (generator.rs lines 40–56) with the two
random samples `g, h ∈ [2, limit-1]` passed in explicitly: both must pass
`verify_generator` against `q`. -/
def generate_group (q g h : Nat) : Except GenError (Nat × Nat) := do
  verify_generator g q
  verify_generator h q
  return (g, h)

/-- `Material` of the material crate (`src/material/src/domain/material.rs`,
fields `g h p q : BigUint`). -/
structure Material where
  g : Nat
  h : Nat
  p : Nat
  q : Nat
deriving DecidableEq, Repr

/-- The retry loop of `DefaultMaterialGenerator::generate` (generator.rs
lines 90–101): repeatedly call `generate_group` on freshly sampled
candidates until one succeeds, racing a wall-clock timeout; exhaustion of
the explicit candidate list stands for the timeout firing first. -/
def searchGroup (q : Nat) : List (Nat × Nat) → Except GenError (Nat × Nat)
  | [] => .error .timeout
  | (g, h) :: rest =>
      match generate_group q g h with
      | .ok r => .ok r
      | .error _ => searchGroup q rest

/-- `DefaultMaterialGenerator::generate` (generator.rs lines 62–116), after
resolving the optional hints to concrete `q` and `p` (a missing hint is
replaced by a freshly generated 16-bit safe prime in the source; resolution
is external randomness, so the resolved values are taken as inputs):
reject `q == p`; verify `q` and `p` prime; convert `q` to the sampling
limit (`u128`); search for a generator pair; package the material as
`g, h, p, q`. -/
def generate (q p : Nat) (candidates : List (Nat × Nat)) :
    Except GenError Material :=
  if q = p then .error .qEqualsP
  else
    match verify_prime q with
    | .error e => .error e
    | .ok _ =>
      match verify_prime p with
      | .error e => .error e
      | .ok _ =>
        if 2 ^ 128 ≤ q then .error .orderNotU128
        else
          match searchGroup q candidates with
          | .error e => .error e
          | .ok (g, h) => .ok ⟨g, h, p, q⟩

end Gen

namespace Verifier

/-!
Embedding of the verifier session logic
(`src/verifier/src/application/handler.rs` over the storage of
`src/verifier/src/infrastructure/mem_storage.rs` and the registry of
`src/verifier/src/infrastructure/file_params.rs`).

The handler methods are deep-embedded as programs in a small effect
language `Prog` whose operations are exactly the collaborator calls the
source performs (`params.query`, `storage.get_challenge`,
`storage.get_user`, `storage.store_user`, `storage.store_challenge`), so
that the number and order of collaborator calls of a run is observable.
`runT` interprets a program against an in-memory state (`DashMap`s and the
`FileParams` `HashMap` are embedded as association lists with
replace-on-insert), also returning the trace of collaborator calls;
`runO` interprets a program against fallible collaborator oracles.
`User(String)` and `AuthId(String)` newtypes are embedded as `String`.
-/

/-- `Register` of the verifier domain as used by `handler.rs`
(`user`, `y1`, `y2`, the public values being `BigInt`s). -/
structure Register where
  user : String
  y1 : Int
  y2 : Int
deriving DecidableEq, Repr

/-- `Challenge` of the verifier domain (`user`, `r1`, `r2`). -/
structure Challenge where
  user : String
  r1 : Int
  r2 : Int
deriving DecidableEq, Repr

/-- `ChallengeResponse` of the verifier domain (`auth_id`, `c`), the data
returned by `create_challenge` (built from the protocol's `Challenge`). -/
structure ChallengeResponse where
  auth_id : String
  c : Int
deriving DecidableEq, Repr

/-- `ChallengeStore` of the verifier domain (`challenge`, `response`), the
record persisted under the `auth_id` between challenge and verification. -/
structure ChallengeStore where
  challenge : Challenge
  response : ChallengeResponse
deriving DecidableEq, Repr

/-- `Answer` of the verifier domain (`auth_id`, `s`). -/
structure Answer where
  auth_id : String
  s : Int
deriving DecidableEq, Repr

/-- Modelled from the spec: `AnswerResult`, the outcome type of
`verify_challenge` (its definition is not among the provided sources; the
`Failure` variant appears in the `handler.rs` tests, and the spec describes
the outcome as `Verified{session_id}` or `Failed` — the freshly minted
session id carries no further protocol content and is omitted). -/
inductive AnswerResult where
  | Success
  | Failure
deriving DecidableEq, Repr

/-- Modelled from the spec: the `From<VerificationResult> for AnswerResult`
conversion applied at the end of `verify_challenge` (`result.into()`):
protocol success maps to `Success`, protocol failure to `Failure`. -/
def answerResultOf : CP.VerificationResult → AnswerResult
  | .ChallengeVerifiedSuccess => .Success
  | .ChallengeVerificationFailed => .Failure

/-- The effect language of the verifier session logic: one operation per
collaborator call available to `handler.rs`. -/
inductive Prog (α : Type) where
  | pure (a : α)
  | fail (msg : String)
  | queryParams (user : String) (k : Option CP.Material → Prog α)
  | getChallenge (auth_id : String) (k : Option ChallengeStore → Prog α)
  | getUser (user : String) (k : Option Register → Prog α)
  | storeUser (r : Register) (k : Unit → Prog α)
  | storeChallenge (auth_id : String) (cs : ChallengeStore) (k : Unit → Prog α)

/-- `VerifierApplication::register` (handler.rs lines 65–77): query the
registry for the user's material; error if absent; otherwise store the
registration. -/
def registerProg (register : Register) : Prog Unit :=
  .queryParams register.user fun material =>
    match material with
    | none => .fail "User material not found. You should generate material first."
    | some _ => .storeUser register fun _ => .pure ()

/-- `VerifierApplication::create_challenge` (handler.rs lines 79–99): query
the registry for the user's material (error if absent); run the
`Material → Challenge` protocol transition (its fresh random `c` and fresh
`auth_id` are passed in explicitly); persist the `ChallengeStore` under the
`auth_id`; return the `ChallengeResponse`. -/
def createChallengeProg (challenge : Challenge) (auth_id : String) (c : Int) :
    Prog ChallengeResponse :=
  .queryParams challenge.user fun m =>
    match m with
    | none => .fail "Material not found"
    | some material =>
        let created := material.change auth_id c
        let response : ChallengeResponse := ⟨created.auth_id, created.c⟩
        let store : ChallengeStore := ⟨challenge, response⟩
        .storeChallenge response.auth_id store fun _ => .pure response

/-- `VerifierApplication::verify_challenge` (handler.rs lines 101–142):
load the challenge record (error if absent); load the user's material from
the registry (error if absent); load the user's registration (error if
absent); run the verification transition and return its result as an
ordinary value. -/
def verifyChallengeProg (answer : Answer) : Prog AnswerResult :=
  .getChallenge answer.auth_id fun ch =>
    match ch with
    | none => .fail "Challenge not found"
    | some challenge =>
        .queryParams challenge.challenge.user fun m =>
          match m with
          | none => .fail "Material not found for user"
          | some material =>
              .getUser challenge.challenge.user fun u =>
                match u with
                | none => .fail "User not found"
                | some user =>
                    .pure (answerResultOf
                      (CP.Verification.mk material user.y1 user.y2
                        challenge.challenge.r1 challenge.challenge.r2
                        challenge.response.c answer.s).change)

/-- Map insertion with `DashMap::insert` semantics: replaces any previous
binding of the key. -/
def mapInsert {τ : Type} (key : String) (v : τ) (l : List (String × τ)) :
    List (String × τ) :=
  (key, v) :: l.filter (fun p => p.1 != key)

/-- `MemStorage::store_user` (mem_storage.rs lines 32–35): insert the
registration keyed by its user. -/
def store_user (users : List (String × Register)) (r : Register) :
    List (String × Register) :=
  mapInsert r.user r users

/-- `MemStorage::get_user` (mem_storage.rs lines 66–68): lookup by user. -/
def get_user (users : List (String × Register)) (user : String) :
    Option Register :=
  users.lookup user

/-- `MemStorage::store_challenge` (mem_storage.rs lines 47–54). -/
def store_challenge (challenges : List (String × ChallengeStore))
    (auth_id : String) (cs : ChallengeStore) : List (String × ChallengeStore) :=
  mapInsert auth_id cs challenges

/-- `MemStorage::get_challenge` (mem_storage.rs lines 80–82). -/
def get_challenge (challenges : List (String × ChallengeStore))
    (auth_id : String) : Option ChallengeStore :=
  challenges.lookup auth_id

/-- The in-memory state the verifier application runs against: the
registry's materials (`FileParams.materials`) and `MemStorage`'s two maps. -/
structure VState where
  params : List (String × CP.Material)
  users : List (String × Register)
  challenges : List (String × ChallengeStore)
deriving DecidableEq, Repr

/-- Collaborator-call events, for counting reads and writes. -/
inductive Ev where
  | readParams
  | readChallenge
  | readUser
  | writeUser
  | writeChallenge
deriving DecidableEq, Repr

/-- A read against the `VerifierStorage` collaborator (`MemStorage`). -/
def isStorageRead : Ev → Bool
  | .readChallenge => true
  | .readUser => true
  | _ => false

/-- A write against the `VerifierStorage` collaborator (`MemStorage`). -/
def isStorageWrite : Ev → Bool
  | .writeUser => true
  | .writeChallenge => true
  | _ => false

/-- A read against the `Params` registry collaborator (`FileParams`). -/
def isRegistryRead : Ev → Bool
  | .readParams => true
  | _ => false

/-- Interpreter against the in-memory state: returns the result, the final
state, and the trace of collaborator calls performed. -/
def runT {α : Type} : Prog α → VState → Except String α × VState × List Ev
  | .pure a, s => (.ok a, s, [])
  | .fail m, s => (.error m, s, [])
  | .queryParams u k, s =>
      let r := runT (k (s.params.lookup u)) s
      (r.1, r.2.1, .readParams :: r.2.2)
  | .getChallenge a k, s =>
      let r := runT (k (get_challenge s.challenges a)) s
      (r.1, r.2.1, .readChallenge :: r.2.2)
  | .getUser u k, s =>
      let r := runT (k (get_user s.users u)) s
      (r.1, r.2.1, .readUser :: r.2.2)
  | .storeUser reg k, s =>
      let r := runT (k ()) { s with users := store_user s.users reg }
      (r.1, r.2.1, .writeUser :: r.2.2)
  | .storeChallenge a cs k, s =>
      let r := runT (k ()) { s with challenges := store_challenge s.challenges a cs }
      (r.1, r.2.1, .writeChallenge :: r.2.2)

/-- Fallible collaborator oracles (each call may fail, as the `async`
collaborator traits allow). -/
structure Oracles where
  query : String → Except String (Option CP.Material)
  getChallengeO : String → Except String (Option ChallengeStore)
  getUserO : String → Except String (Option Register)
  storeUserO : Register → Except String Unit
  storeChallengeO : String → ChallengeStore → Except String Unit

/-- Interpreter against fallible oracles: an oracle failure aborts the
program immediately (the `?` operator in the source), with the failure
passed through unchanged. -/
def runO {α : Type} (o : Oracles) : Prog α → Except String α
  | .pure a => .ok a
  | .fail m => .error m
  | .queryParams u k =>
      match o.query u with
      | .error e => .error e
      | .ok v => runO o (k v)
  | .getChallenge a k =>
      match o.getChallengeO a with
      | .error e => .error e
      | .ok v => runO o (k v)
  | .getUser u k =>
      match o.getUserO u with
      | .error e => .error e
      | .ok v => runO o (k v)
  | .storeUser r k =>
      match o.storeUserO r with
      | .error e => .error e
      | .ok _ => runO o (k ())
  | .storeChallenge a cs k =>
      match o.storeChallengeO a cs with
      | .error e => .error e
      | .ok _ => runO o (k ())

/-- Oracles in which every collaborator call fails with `"boom"`. -/
def failingOracles : Oracles :=
  ⟨fun _ => .error "boom", fun _ => .error "boom", fun _ => .error "boom",
    fun _ => .error "boom", fun _ _ => .error "boom"⟩

/-- Oracles whose reads succeed (the registry holds material for every
user, storage holds nothing) but whose writes fail with `"disk full"`. -/
def storeFailingOracles : Oracles :=
  ⟨fun _ => .ok (some (CP.Material.mk 4 3 11 23)),
    fun _ => .ok none,
    fun _ => .ok none,
    fun _ => .error "disk full",
    fun _ _ => .error "disk full"⟩

end Verifier

namespace CP

lemma modpow_one (a m : Int) : modpow a 1 m = a % m := by
  simp [modpow]

/-- If some `modpow _ _ p` equals `1` then `p` is not `±1`, hence `1 % p = 1`. -/
lemma one_emod_eq_one {g q p : Int} (h : modpow g q p = 1) : (1 : Int) % p = 1 := by
  rcases eq_or_ne p 0 with hp | hp
  · simp [hp]
  · have h1 : p ≠ 1 := by
      rintro rfl; rw [modpow, Int.emod_one] at h; exact absurd h (by norm_num)
    have h2 : p ≠ -1 := by
      rintro rfl
      rw [modpow, show (-1 : Int) = -(1 : Int) by norm_num, Int.emod_neg, Int.emod_one] at h
      exact absurd h (by norm_num)
    rcases lt_trichotomy p 0 with hlt | hzero | hgt
    · have hneg : p = -(-p) := by ring
      rw [hneg, Int.emod_neg]
      exact Int.emod_eq_of_lt (by norm_num) (by omega)
    · exact absurd hzero hp
    · exact Int.emod_eq_of_lt (by norm_num) (by omega)

lemma int_pow_emod (a : Int) (n : Nat) (m : Int) : a ^ n % m = (a % m) ^ n % m := by
  induction n with
  | zero => simp
  | succ t ih =>
    calc a ^ (t + 1) % m = (a ^ t * a) % m := by rw [pow_succ]
      _ = ((a ^ t % m) * (a % m)) % m := Int.mul_emod _ _ _
      _ = (((a % m) ^ t % m) * (a % m)) % m := by rw [ih]
      _ = (((a % m) ^ t % m) * (a % m % m)) % m := by
            rw [Int.emod_emod_of_dvd _ dvd_rfl]
      _ = ((a % m) ^ t * (a % m)) % m := (Int.mul_emod _ _ _).symm
      _ = (a % m) ^ (t + 1) % m := by rw [pow_succ]

/-- Exponent congruence: if `G ^ q' ≡ 1 (mod p)` then exponents may be
reduced modulo `q'`. -/
lemma pow_congr_of_mod_eq (G p : Int) (q' : Nat)
    (h1 : G ^ q' % p = 1 % p) (m n : Nat) (hmn : m % q' = n % q') :
    G ^ m % p = G ^ n % p := by
  suffices H : ∀ t : Nat, G ^ t % p = G ^ (t % q') % p by
    rw [H m, H n, hmn]
  intro t
  conv_lhs => rw [← Nat.div_add_mod t q']
  rw [pow_add, pow_mul]
  have hone : (G ^ q') ^ (t / q') % p = 1 % p := by
    calc (G ^ q') ^ (t / q') % p = (G ^ q' % p) ^ (t / q') % p := int_pow_emod _ _ _
      _ = (1 % p) ^ (t / q') % p := by rw [h1]
      _ = 1 ^ (t / q') % p := (int_pow_emod _ _ _).symm
      _ = 1 % p := by rw [one_pow]
  calc (G ^ q') ^ (t / q') * G ^ (t % q') % p
      = ((G ^ q') ^ (t / q') % p) * (G ^ (t % q') % p) % p := by rw [Int.mul_emod]
    _ = (1 % p) * (G ^ (t % q') % p) % p := by rw [hone]
    _ = 1 * G ^ (t % q') % p := by rw [← Int.mul_emod]
    _ = G ^ (t % q') % p := by rw [one_mul]

lemma toNat_mul_of_nonneg {x c : Int} (hx : 0 ≤ x) (hc : 0 ≤ c) :
    (x * c).toNat = x.toNat * c.toNat := by
  have h1 : ((x * c).toNat : Int) = x * c := Int.toNat_of_nonneg (mul_nonneg hx hc)
  have h2 : ((x.toNat * c.toNat : Nat) : Int) = x * c := by
    push_cast [Int.toNat_of_nonneg hx, Int.toNat_of_nonneg hc]
    ring
  exact_mod_cast h1.trans h2.symm

lemma toNat_mod_eq {a b q : Int} (ha : 0 ≤ a) (hb : 0 ≤ b) (hq : 0 < q)
    (h : a % q = b % q) : a.toNat % q.toNat = b.toNat % q.toNat := by
  have hc : ((a.toNat % q.toNat : Nat) : Int) = ((b.toNat % q.toNat : Nat) : Int) := by
    push_cast
    rw [Int.toNat_of_nonneg ha, Int.toNat_of_nonneg hb, Int.toNat_of_nonneg hq.le, h]
  exact_mod_cast hc

/-- Bounds of the response value computed by the `ChallengeResponse`
transition: always in `[0, q]` (the value `q` itself is attained, e.g. at
`k = c * x`). -/
lemma response_bounds (k c x q : Int) (hq : 0 < q) :
    0 ≤ (if k > c * x then modpow (k - c * x) 1 q else q - modpow (c * x - k) 1 q) ∧
      (if k > c * x then modpow (k - c * x) 1 q else q - modpow (c * x - k) 1 q) ≤ q := by
  split_ifs with h
  · rw [modpow_one]
    exact ⟨Int.emod_nonneg _ (by omega), (Int.emod_lt_of_pos _ hq).le⟩
  · rw [modpow_one]
    have h1 := Int.emod_nonneg (c * x - k) (show q ≠ 0 by omega)
    have h2 := Int.emod_lt_of_pos (c * x - k) hq
    omega

/-- The response value is congruent to `k - c·x` modulo `q`:
`s + c·x ≡ k (mod q)`. -/
lemma response_congr (k c x q : Int) :
    ((if k > c * x then modpow (k - c * x) 1 q else q - modpow (c * x - k) 1 q)
      + c * x) % q = k % q := by
  split_ifs with h
  · rw [modpow_one, Int.emod_add_emod, sub_add_cancel]
  · rw [modpow_one]
    have : q - (c * x - k) % q + c * x = (c * x - (c * x - k) % q) + 1 * q := by ring
    rw [this, Int.add_mul_emod_self, Int.sub_emod (c * x), Int.emod_emod_of_dvd _ dvd_rfl,
      ← Int.sub_emod, sub_sub_cancel]

/-- Characterisation of the verification transition: success iff both
recomputed commitments match. -/
lemma change_eq_success_iff (v : Verification) :
    v.change = .ChallengeVerifiedSuccess ↔
      (v.r1 = modpow (modpow v.material.g v.s v.material.p *
                modpow v.y1 v.c v.material.p) 1 v.material.p ∧
       v.r2 = modpow (modpow v.material.h v.s v.material.p *
                modpow v.y2 v.c v.material.p) 1 v.material.p) := by
  unfold Verification.change
  dsimp only
  split_ifs with hcond
  · exact iff_of_true rfl hcond
  · exact iff_of_false (by simp) hcond

/-- Characterisation of the verification transition: failure iff some
recomputed commitment mismatches. -/
lemma change_eq_failed_iff (v : Verification) :
    v.change = .ChallengeVerificationFailed ↔
      ¬ (v.r1 = modpow (modpow v.material.g v.s v.material.p *
                  modpow v.y1 v.c v.material.p) 1 v.material.p ∧
         v.r2 = modpow (modpow v.material.h v.s v.material.p *
                  modpow v.y2 v.c v.material.p) 1 v.material.p) := by
  unfold Verification.change
  dsimp only
  split_ifs with hcond
  · exact iff_of_false (by simp) (not_not_intro hcond)
  · exact iff_of_true rfl hcond

/-- For one base `G` of order dividing `q` mod `p`, the verifier's recomputed
commitment `(G^s · (G^x mod p)^c) mod p` equals the honest commitment
`G^k mod p`, provided `s + c·x ≡ k (mod q)`. -/
lemma verify_eq_helper (G p q x k c s : Int)
    (hx : 0 ≤ x) (hc : 0 ≤ c) (hs : 0 ≤ s) (hk : 0 ≤ k) (hq : 0 < q)
    (hG : modpow G q p = 1)
    (hcong : (s + c * x) % q = k % q) :
    modpow (modpow G s p * modpow (modpow G x p) c p) 1 p = modpow G k p := by
  have h1p : (1 : Int) % p = 1 := one_emod_eq_one hG
  have hGq : G ^ q.toNat % p = 1 % p := by
    rw [h1p]; exact hG
  have hmod : (s.toNat + x.toNat * c.toNat) % q.toNat = k.toNat % q.toNat := by
    have hsum : 0 ≤ s + c * x := add_nonneg hs (mul_nonneg hc hx)
    have htrans := toNat_mod_eq hsum hk hq hcong
    rw [Int.toNat_add hs (mul_nonneg hc hx), toNat_mul_of_nonneg hc hx] at htrans
    rw [Nat.mul_comm x.toNat c.toNat]
    exact htrans
  rw [modpow_one]
  show (modpow G s p * modpow (modpow G x p) c p) % p = modpow G k p
  unfold modpow
  calc (G ^ s.toNat % p * ((G ^ x.toNat % p) ^ c.toNat % p)) % p
      = (G ^ s.toNat % p * ((G ^ x.toNat) ^ c.toNat % p)) % p := by
        rw [← int_pow_emod]
    _ = (G ^ s.toNat % p * (G ^ (x.toNat * c.toNat) % p)) % p := by rw [← pow_mul]
    _ = (G ^ s.toNat * G ^ (x.toNat * c.toNat)) % p := by rw [← Int.mul_emod]
    _ = G ^ (s.toNat + x.toNat * c.toNat) % p := by rw [← pow_add]
    _ = G ^ k.toNat % p := pow_congr_of_mod_eq G p q.toNat hGq _ _ hmod

/-- C1 (completeness): for every `Material` in which `g` and `h` have
multiplicative order exactly `q` modulo `p`, every secret `x ∈ [2, q-2]`,
every commitment randomness `k ∈ [2, q-2]` and challenge `c ∈ [2, q-1]`,
the honestly executed register → commit → challenge → respond → verify
sequence ends in `ChallengeVerifiedSuccess`. -/
lemma hexVal_hexChar (d : Nat) (hd : d < 16) : hexVal (hexChar d) = some d := by
  interval_cases d <;> decide

lemma hexChar_ne_minus (d : Nat) (hd : d < 16) : hexChar d ≠ '-' := by
  interval_cases d <;> decide

lemma parse_fold (ds : List Nat) (a : Nat) (hds : ∀ d ∈ ds, d < 16) :
    ((ds.map hexChar).reverse).foldl hexFold (some a)
      = some (a * 16 ^ ds.length + Nat.ofDigits 16 ds) := by
  induction ds generalizing a with
  | nil => simp [Nat.ofDigits]
  | cons d rest ih =>
    have hd : d < 16 := hds d (by simp)
    have hrest : ∀ x ∈ rest, x < 16 := fun x hx => hds x (by simp [hx])
    rw [List.map_cons, List.reverse_cons, List.foldl_append, ih a hrest]
    have hstep : List.foldl hexFold
        (some (a * 16 ^ rest.length + Nat.ofDigits 16 rest)) [hexChar d]
        = some ((a * 16 ^ rest.length + Nat.ofDigits 16 rest) * 16 + d) := by
      simp [hexFold, hexVal_hexChar d hd]
    rw [hstep, Nat.ofDigits_cons]
    congr 1
    rw [List.length_cons, pow_succ]
    ring

lemma parseHexNat_natToHex (n : Nat) : parseHexNat (natToHex n) = some n := by
  by_cases h0 : n = 0
  · subst h0; decide
  · unfold natToHex parseHexNat
    rw [if_neg h0]
    have hnil : Nat.digits 16 n ≠ [] := Nat.digits_ne_nil_iff_ne_zero.mpr h0
    rw [if_neg (by simp [List.isEmpty_iff, hnil])]
    have hds : ∀ d ∈ Nat.digits 16 n, d < 16 :=
      fun d hd => Nat.digits_lt_base (by norm_num) hd
    rw [parse_fold _ 0 hds, Nat.ofDigits_digits]
    simp

lemma natToHex_head_ne_minus (n : Nat) : ¬ (natToHex n).head? = some '-' := by
  have hmem : ∀ ch ∈ natToHex n, ch ≠ '-' := by
    intro ch hch
    unfold natToHex at hch
    split at hch
    · simp at hch
      subst hch; decide
    · rw [List.mem_reverse, List.mem_map] at hch
      obtain ⟨d, hd, rfl⟩ := hch
      exact hexChar_ne_minus d (Nat.digits_lt_base (by norm_num) hd)
  cases hh : (natToHex n).head? with
  | none => simp
  | some ch =>
    have : ch ∈ natToHex n := List.mem_of_mem_head? hh
    simpa using fun hcontr => hmem ch this (by simpa using hcontr)

lemma parse_bytes_to_str_radix (i : Int) (hi : 0 ≤ i) :
    parse_bytes (to_str_radix i) = some i := by
  have h1 : to_str_radix i = natToHex i.toNat := by
    unfold to_str_radix
    rw [if_neg (by omega)]
  rw [h1]
  unfold parse_bytes
  rw [if_neg (natToHex_head_ne_minus i.toNat), parseHexNat_natToHex]
  simp [Int.toNat_of_nonneg hi]

/-- C10: serialisation round-trip — for every `Material` with non-negative
components and every user string, `from_material` followed by `to_material`
recovers the original `g`, `h`, `q`, `p`. -/

theorem chaum_pedersen_completeness
    (m : Material) (x k c : Int) (aid : String)
    (hx : 2 ≤ x ∧ x ≤ m.q - 2)
    (hk : 2 ≤ k ∧ k ≤ m.q - 2)
    (hc : 2 ≤ c ∧ c ≤ m.q - 1)
    (hg : ordExactly m.g m.q m.p)
    (hh : ordExactly m.h m.q m.p) :
    (Verification.mk m (Register.new m x).y1 (Register.new m x).y2
        ((Register.new m x).change k).r1 ((Register.new m x).change k).r2
        (m.change aid c).c
        (ChallengeResponse.mk (m.change aid c) m x k).change.s).change
      = .ChallengeVerifiedSuccess := by
  obtain ⟨hx1, hx2⟩ := hx
  obtain ⟨hk1, hk2⟩ := hk
  obtain ⟨hc1, hc2⟩ := hc
  have hq : (0 : Int) < m.q := by omega
  have hSb := response_bounds k c x m.q hq
  have hcong := response_congr k c x m.q
  rw [change_eq_success_iff]
  constructor
  · exact (verify_eq_helper m.g m.p m.q x k c _
      (by omega) (by omega) hSb.1 (by omega) hq hg.1 hcong).symm
  · exact (verify_eq_helper m.h m.p m.q x k c _
      (by omega) (by omega) hSb.1 (by omega) hq hh.1 hcong).symm

/-- Witness for C1 at the concrete group `p = 23`, `q = 11`, `g = 4`,
`h = 3`, with `x = 3`, `k = 5`, `c = 4`. -/
theorem chaum_pedersen_completeness_witness :
    ((2 : Int) ≤ 3 ∧ (3 : Int) ≤ (11 : Int) - 2) ∧
    ((2 : Int) ≤ 5 ∧ (5 : Int) ≤ (11 : Int) - 2) ∧
    ((2 : Int) ≤ 4 ∧ (4 : Int) ≤ (11 : Int) - 1) ∧
    ordExactly 4 11 23 ∧ ordExactly 3 11 23 ∧
    (Verification.mk ⟨4, 3, 11, 23⟩
        (Register.new ⟨4, 3, 11, 23⟩ 3).y1 (Register.new ⟨4, 3, 11, 23⟩ 3).y2
        ((Register.new ⟨4, 3, 11, 23⟩ 3).change 5).r1
        ((Register.new ⟨4, 3, 11, 23⟩ 3).change 5).r2
        ((⟨4, 3, 11, 23⟩ : Material).change "a" 4).c
        (ChallengeResponse.mk ((⟨4, 3, 11, 23⟩ : Material).change "a" 4)
          ⟨4, 3, 11, 23⟩ 3 5).change.s).change
      = .ChallengeVerifiedSuccess :=
  ⟨by decide, by decide, by decide, by decide, by decide,
    chaum_pedersen_completeness ⟨4, 3, 11, 23⟩ 3 5 4 "a"
      (by decide) (by decide) (by decide) (by decide) (by decide)⟩

/-- C2: for every `Verification` state with non-negative `c` and `s`, the
verification transition returns `ChallengeVerifiedSuccess` iff both
`r1 = g^s · y1^c mod p` and `r2 = h^s · y2^c mod p` hold; when exactly one
of the two equalities holds it returns `ChallengeVerificationFailed`. -/
theorem verification_success_iff_both (v : Verification)
    (hc : 0 ≤ v.c) (hs : 0 ≤ v.s) :
    (v.change = .ChallengeVerifiedSuccess ↔
      (v.r1 = v.material.g ^ v.s.toNat * v.y1 ^ v.c.toNat % v.material.p ∧
       v.r2 = v.material.h ^ v.s.toNat * v.y2 ^ v.c.toNat % v.material.p)) ∧
    ((v.r1 = v.material.g ^ v.s.toNat * v.y1 ^ v.c.toNat % v.material.p ∧
        v.r2 ≠ v.material.h ^ v.s.toNat * v.y2 ^ v.c.toNat % v.material.p) ∨
      (v.r1 ≠ v.material.g ^ v.s.toNat * v.y1 ^ v.c.toNat % v.material.p ∧
        v.r2 = v.material.h ^ v.s.toNat * v.y2 ^ v.c.toNat % v.material.p) →
      v.change = .ChallengeVerificationFailed) := by
  have key1 : modpow (modpow v.material.g v.s v.material.p *
        modpow v.y1 v.c v.material.p) 1 v.material.p
      = v.material.g ^ v.s.toNat * v.y1 ^ v.c.toNat % v.material.p := by
    rw [modpow_one]
    show (v.material.g ^ v.s.toNat % v.material.p *
        (v.y1 ^ v.c.toNat % v.material.p)) % v.material.p = _
    rw [← Int.mul_emod]
  have key2 : modpow (modpow v.material.h v.s v.material.p *
        modpow v.y2 v.c v.material.p) 1 v.material.p
      = v.material.h ^ v.s.toNat * v.y2 ^ v.c.toNat % v.material.p := by
    rw [modpow_one]
    show (v.material.h ^ v.s.toNat % v.material.p *
        (v.y2 ^ v.c.toNat % v.material.p)) % v.material.p = _
    rw [← Int.mul_emod]
  constructor
  · rw [change_eq_success_iff, key1, key2]
  · intro hone
    rw [change_eq_failed_iff, key1, key2]
    tauto

/-- Witness for C2 at a concrete `Verification` state. -/
theorem verification_success_iff_both_witness :
    (0 : Int) ≤ (Verification.mk ⟨4, 3, 11, 23⟩ 2 3 5 6 7 8).c ∧
    (0 : Int) ≤ (Verification.mk ⟨4, 3, 11, 23⟩ 2 3 5 6 7 8).s ∧
    (((Verification.mk ⟨4, 3, 11, 23⟩ 2 3 5 6 7 8).change = .ChallengeVerifiedSuccess ↔
      ((Verification.mk ⟨4, 3, 11, 23⟩ 2 3 5 6 7 8).r1 =
          (4 : Int) ^ (8 : Int).toNat * 2 ^ (7 : Int).toNat % 23 ∧
       (Verification.mk ⟨4, 3, 11, 23⟩ 2 3 5 6 7 8).r2 =
          (3 : Int) ^ (8 : Int).toNat * 3 ^ (7 : Int).toNat % 23)) ∧
     (((Verification.mk ⟨4, 3, 11, 23⟩ 2 3 5 6 7 8).r1 =
          (4 : Int) ^ (8 : Int).toNat * 2 ^ (7 : Int).toNat % 23 ∧
        (Verification.mk ⟨4, 3, 11, 23⟩ 2 3 5 6 7 8).r2 ≠
          (3 : Int) ^ (8 : Int).toNat * 3 ^ (7 : Int).toNat % 23) ∨
      ((Verification.mk ⟨4, 3, 11, 23⟩ 2 3 5 6 7 8).r1 ≠
          (4 : Int) ^ (8 : Int).toNat * 2 ^ (7 : Int).toNat % 23 ∧
        (Verification.mk ⟨4, 3, 11, 23⟩ 2 3 5 6 7 8).r2 =
          (3 : Int) ^ (8 : Int).toNat * 3 ^ (7 : Int).toNat % 23) →
      (Verification.mk ⟨4, 3, 11, 23⟩ 2 3 5 6 7 8).change = .ChallengeVerificationFailed)) :=
  ⟨by decide, by decide,
    verification_success_iff_both (Verification.mk ⟨4, 3, 11, 23⟩ 2 3 5 6 7 8)
      (by decide) (by decide)⟩

/-- C3 counterexample: at the `ChallengeResponse` state with `q = 5`,
`c = 1`, `x = 1`, `k = 1` (so `k = c·x`), the response is `s = 5 = q`,
violating `s < q` although `q > 0` and `c`, `x`, `k` are non-negative. -/
theorem response_range_cex :
    (0 : Int) < (ChallengeResponse.mk ⟨"a", 1⟩ ⟨4, 3, 5, 23⟩ 1 1).material.q ∧
    (0 : Int) ≤ (ChallengeResponse.mk ⟨"a", 1⟩ ⟨4, 3, 5, 23⟩ 1 1).challenge.c ∧
    (0 : Int) ≤ (ChallengeResponse.mk ⟨"a", 1⟩ ⟨4, 3, 5, 23⟩ 1 1).x ∧
    (0 : Int) ≤ (ChallengeResponse.mk ⟨"a", 1⟩ ⟨4, 3, 5, 23⟩ 1 1).k ∧
    (ChallengeResponse.mk ⟨"a", 1⟩ ⟨4, 3, 5, 23⟩ 1 1).change.s = 5 ∧
    ¬ ((ChallengeResponse.mk ⟨"a", 1⟩ ⟨4, 3, 5, 23⟩ 1 1).change.s <
        (ChallengeResponse.mk ⟨"a", 1⟩ ⟨4, 3, 5, 23⟩ 1 1).material.q) := by
  decide

/-- C3 (amended): for every `ChallengeResponse` state with `q > 0` and
non-negative `c`, `x`, `k`, the response satisfies `0 ≤ s ≤ q` (the upper
bound `q` is attained, e.g. when `k = c·x`, so `s < q` does not hold in
general). -/
theorem response_range_amended (cr : ChallengeResponse)
    (hq : 0 < cr.material.q) (hc : 0 ≤ cr.challenge.c)
    (hx : 0 ≤ cr.x) (hk : 0 ≤ cr.k) :
    0 ≤ cr.change.s ∧ cr.change.s ≤ cr.material.q :=
  response_bounds cr.k cr.challenge.c cr.x cr.material.q hq

/-- Witness for the amended C3. -/
theorem response_range_amended_witness :
    (0 : Int) < (ChallengeResponse.mk ⟨"a", 2⟩ ⟨4, 3, 11, 23⟩ 3 5).material.q ∧
    (0 : Int) ≤ (ChallengeResponse.mk ⟨"a", 2⟩ ⟨4, 3, 11, 23⟩ 3 5).challenge.c ∧
    (0 : Int) ≤ (ChallengeResponse.mk ⟨"a", 2⟩ ⟨4, 3, 11, 23⟩ 3 5).x ∧
    (0 : Int) ≤ (ChallengeResponse.mk ⟨"a", 2⟩ ⟨4, 3, 11, 23⟩ 3 5).k ∧
    (0 ≤ (ChallengeResponse.mk ⟨"a", 2⟩ ⟨4, 3, 11, 23⟩ 3 5).change.s ∧
      (ChallengeResponse.mk ⟨"a", 2⟩ ⟨4, 3, 11, 23⟩ 3 5).change.s ≤
        (ChallengeResponse.mk ⟨"a", 2⟩ ⟨4, 3, 11, 23⟩ 3 5).material.q) :=
  ⟨by decide, by decide, by decide, by decide,
    response_range_amended (ChallengeResponse.mk ⟨"a", 2⟩ ⟨4, 3, 11, 23⟩ 3 5)
      (by decide) (by decide) (by decide) (by decide)⟩

theorem material_serde_roundtrip (m : Material) (user : String)
    (hg : 0 ≤ m.g) (hh : 0 ≤ m.h) (hq : 0 ≤ m.q) (hp : 0 ≤ m.p) :
    (MaterialSerde.from_material m user).to_material = some m := by
  unfold MaterialSerde.from_material MaterialSerde.to_material
  rw [parse_bytes_to_str_radix m.g hg, parse_bytes_to_str_radix m.h hh,
    parse_bytes_to_str_radix m.q hq, parse_bytes_to_str_radix m.p hp]
  rfl

/-- Witness for C10. -/
theorem material_serde_roundtrip_witness :
    (0 : Int) ≤ (Material.mk 4 3 11 23).g ∧ (0 : Int) ≤ (Material.mk 4 3 11 23).h ∧
    (0 : Int) ≤ (Material.mk 4 3 11 23).q ∧ (0 : Int) ≤ (Material.mk 4 3 11 23).p ∧
    (MaterialSerde.from_material (Material.mk 4 3 11 23) "u").to_material =
      some (Material.mk 4 3 11 23) :=
  ⟨by decide, by decide, by decide, by decide,
    material_serde_roundtrip (Material.mk 4 3 11 23) "u"
      (by decide) (by decide) (by decide) (by decide)⟩


end CP

namespace Gen

/-- C4 (exhibiting the code bug): `DefaultMaterialGenerator::generate`,
given resolved primes `q = 7` and `p = 3` and the sampled candidate pair
`(2, 2)`, successfully returns `Material{g=2, h=2, p=3, q=7}`, although
`g^q mod p = 2^7 mod 3 = 2 ≠ 1` — so the returned `g` does not have
multiplicative order `q` modulo `p` (`verify_generator` squares modulo the
order `q` and never consults `p`). -/
theorem generator_validity_bug :
    Gen.generate 7 3 [(2, 2)] = .ok ⟨2, 2, 3, 7⟩ ∧
    ¬ ((⟨2, 2, 3, 7⟩ : Gen.Material).g ^ (⟨2, 2, 3, 7⟩ : Gen.Material).q %
        (⟨2, 2, 3, 7⟩ : Gen.Material).p = 1) :=
  ⟨rfl, by decide⟩

/-- C6: `DefaultMaterialGenerator::generate` fails (returning one of the
`InvalidParameters`-class errors, never a `Material`) whenever the resolved
`q` equals the resolved `p`, or `q` fails the primality check, or `p` fails
the primality check. -/
theorem generate_invalid_parameters (q p : Nat) (cands : List (Nat × Nat))
    (h : q = p ∨ ¬ q.Prime ∨ ¬ p.Prime) :
    Gen.generate q p cands = .error .qEqualsP ∨
    Gen.generate q p cands = .error (.notPrime q) ∨
    Gen.generate q p cands = .error (.notPrime p) := by
  by_cases hqp : q = p
  · left; simp [Gen.generate, hqp]
  · by_cases hq : Nat.Prime q
    · by_cases hp : Nat.Prime p
      · exact absurd h (by simp [hqp, hq, hp])
      · right; right; simp [Gen.generate, Gen.verify_prime, hqp, hq, hp]
    · right; left; simp [Gen.generate, Gen.verify_prime, hqp, hq]

/-- Witness for C6 at `q = 4` (not prime), `p = 7`. -/
theorem generate_invalid_parameters_witness :
    ((4 : Nat) = 7 ∨ ¬ Nat.Prime 4 ∨ ¬ Nat.Prime 7) ∧
    (Gen.generate 4 7 [] = .error .qEqualsP ∨
     Gen.generate 4 7 [] = .error (.notPrime 4) ∨
     Gen.generate 4 7 [] = .error (.notPrime 7)) :=
  ⟨Or.inr (Or.inl (by decide)),
    generate_invalid_parameters 4 7 [] (Or.inr (Or.inl (by decide)))⟩


end Gen

namespace Verifier

/-- C5: error classification of the verifier session operations.
`register` errors exactly when the registry holds no material for the user,
and otherwise stores the registration; `verify_challenge` errors when the
challenge record is absent, when the material for its user is absent, or
when the registration is absent; when all three are present it returns the
ordinary verification outcome as an `Ok` value — a failed proof yields
`Ok Failure`, never an error. -/
theorem verifier_error_classification (s : VState) (reg : Register) (ans : Answer) :
    ((s.params.lookup reg.user = none →
        (runT (registerProg reg) s).1 =
          .error "User material not found. You should generate material first.") ∧
     (∀ m : CP.Material, s.params.lookup reg.user = some m →
        (runT (registerProg reg) s).1 = .ok () ∧
        get_user (runT (registerProg reg) s).2.1.users reg.user = some reg)) ∧
    ((get_challenge s.challenges ans.auth_id = none →
        (runT (verifyChallengeProg ans) s).1 = .error "Challenge not found") ∧
     (∀ cs : ChallengeStore, get_challenge s.challenges ans.auth_id = some cs →
        (s.params.lookup cs.challenge.user = none →
          (runT (verifyChallengeProg ans) s).1 =
            .error "Material not found for user") ∧
        (∀ m : CP.Material, s.params.lookup cs.challenge.user = some m →
          (get_user s.users cs.challenge.user = none →
            (runT (verifyChallengeProg ans) s).1 = .error "User not found") ∧
          (∀ u : Register, get_user s.users cs.challenge.user = some u →
            (runT (verifyChallengeProg ans) s).1 =
              .ok (answerResultOf (CP.Verification.mk m u.y1 u.y2
                cs.challenge.r1 cs.challenge.r2 cs.response.c ans.s).change) ∧
            ((CP.Verification.mk m u.y1 u.y2 cs.challenge.r1 cs.challenge.r2
                cs.response.c ans.s).change = .ChallengeVerificationFailed →
              (runT (verifyChallengeProg ans) s).1 = .ok .Failure))))) := by
  refine ⟨⟨fun hnone => ?_, fun m hm => ?_⟩, ⟨fun hnone => ?_, fun cs hcs => ?_⟩⟩
  · simp [registerProg, runT, hnone]
  · simp [registerProg, runT, hm, get_user, store_user, mapInsert, List.lookup]
  · simp [verifyChallengeProg, runT, hnone]
  · refine ⟨fun hmnone => ?_, fun m hm => ⟨fun hunone => ?_, fun u hu => ⟨?_, ?_⟩⟩⟩
    · simp [verifyChallengeProg, runT, hcs, hmnone]
    · simp [verifyChallengeProg, runT, hcs, hm, hunone]
    · simp [verifyChallengeProg, runT, hcs, hm, hu]
    · intro hfail
      simp [verifyChallengeProg, runT, hcs, hm, hu, hfail, answerResultOf]

/-- Witness for C5: a state provisioned with material for `"u"` but no
stored challenge: `register` succeeds and stores, `verify_challenge` on an
unknown `auth_id` errors with `"Challenge not found"`. -/
theorem verifier_error_classification_witness :
    ((VState.mk [("u", CP.Material.mk 4 3 11 23)] [] []).params.lookup "u" =
        some (CP.Material.mk 4 3 11 23)) ∧
    (runT (registerProg (Register.mk "u" 1 2))
        (VState.mk [("u", CP.Material.mk 4 3 11 23)] [] [])).1 = .ok () ∧
    get_challenge (VState.mk [("u", CP.Material.mk 4 3 11 23)] [] []).challenges "a" = none ∧
    (runT (verifyChallengeProg (Answer.mk "a" 3))
        (VState.mk [("u", CP.Material.mk 4 3 11 23)] [] [])).1 =
      .error "Challenge not found" := by
  have h := verifier_error_classification
    (VState.mk [("u", CP.Material.mk 4 3 11 23)] [] [])
    (Register.mk "u" 1 2) (Answer.mk "a" 3)
  exact ⟨rfl, (h.1.2 (CP.Material.mk 4 3 11 23) rfl).1, rfl, h.2.1 rfl⟩

/-- C7: last-write-wins re-registration — storing `r1` then `r2` for the
same user leaves exactly `r2` retrievable. -/
theorem store_user_last_write_wins (users : List (String × Register))
    (user : String) (r1 r2 : Register) (h1 : r1.user = user) (h2 : r2.user = user) :
    get_user (store_user (store_user users r1) r2) user = some r2 := by
  subst h2
  simp [get_user, store_user, mapInsert, List.lookup]

/-- Witness for C7. -/
theorem store_user_last_write_wins_witness :
    (Register.mk "u" 1 2).user = "u" ∧ (Register.mk "u" 3 4).user = "u" ∧
    get_user (store_user (store_user [] (Register.mk "u" 1 2)) (Register.mk "u" 3 4)) "u" =
      some (Register.mk "u" 3 4) :=
  ⟨rfl, rfl,
    store_user_last_write_wins [] "u" (Register.mk "u" 1 2) (Register.mk "u" 3 4) rfl rfl⟩

/-- C8 counterexample: a `verify_challenge` invocation in which the
challenge record, material and registration are all present performs two
reads against the storage collaborator (`get_challenge` and `get_user`),
refuting "at most one read against external storage". -/
theorem verifier_single_read_cex :
    (runT (verifyChallengeProg (Answer.mk "a" 3))
        (VState.mk [("u", CP.Material.mk 4 3 11 23)]
          [("u", Register.mk "u" 1 2)]
          [("a", ChallengeStore.mk (Challenge.mk "u" 5 6) (ChallengeResponse.mk "a" 7))])
      ).2.2.countP isStorageRead = 2 ∧
    ¬ ((runT (verifyChallengeProg (Answer.mk "a" 3))
        (VState.mk [("u", CP.Material.mk 4 3 11 23)]
          [("u", Register.mk "u" 1 2)]
          [("a", ChallengeStore.mk (Challenge.mk "u" 5 6) (ChallengeResponse.mk "a" 7))])
      ).2.2.countP isStorageRead ≤ 1) := by
  decide

/-- C8 (amended): `register` and `create_challenge` perform exactly one
registry read, no storage read and at most one storage write;
`verify_challenge` performs at most one registry read, at most **two**
storage reads and no storage write; and a failing collaborator call — at
any of the call sites of the three operations (`register`: registry query,
`store_user`; `create_challenge`: registry query, `store_challenge`;
`verify_challenge`: `get_challenge`, registry query, `get_user`) — makes
the operation fail with the same error, with no internal retry. -/
theorem verifier_effect_bounds
    (s : VState) (reg : Register) (ch : Challenge) (aid : String) (c : Int)
    (ans : Answer) (o : Oracles) (e : String) :
    ((runT (registerProg reg) s).2.2.countP isRegistryRead = 1 ∧
     (runT (registerProg reg) s).2.2.countP isStorageRead = 0 ∧
     (runT (registerProg reg) s).2.2.countP isStorageWrite ≤ 1) ∧
    ((runT (createChallengeProg ch aid c) s).2.2.countP isRegistryRead = 1 ∧
     (runT (createChallengeProg ch aid c) s).2.2.countP isStorageRead = 0 ∧
     (runT (createChallengeProg ch aid c) s).2.2.countP isStorageWrite ≤ 1) ∧
    ((runT (verifyChallengeProg ans) s).2.2.countP isRegistryRead ≤ 1 ∧
     (runT (verifyChallengeProg ans) s).2.2.countP isStorageRead ≤ 2 ∧
     (runT (verifyChallengeProg ans) s).2.2.countP isStorageWrite = 0) ∧
    ((o.query reg.user = .error e → runO o (registerProg reg) = .error e) ∧
     (∀ m : CP.Material, o.query reg.user = .ok (some m) →
        o.storeUserO reg = .error e → runO o (registerProg reg) = .error e) ∧
     (o.query ch.user = .error e → runO o (createChallengeProg ch aid c) = .error e) ∧
     (∀ m : CP.Material, o.query ch.user = .ok (some m) →
        o.storeChallengeO aid
            (ChallengeStore.mk ch (ChallengeResponse.mk aid c)) = .error e →
        runO o (createChallengeProg ch aid c) = .error e) ∧
     (o.getChallengeO ans.auth_id = .error e →
        runO o (verifyChallengeProg ans) = .error e) ∧
     (∀ cs : ChallengeStore, o.getChallengeO ans.auth_id = .ok (some cs) →
        o.query cs.challenge.user = .error e →
        runO o (verifyChallengeProg ans) = .error e) ∧
     (∀ (cs : ChallengeStore) (m : CP.Material),
        o.getChallengeO ans.auth_id = .ok (some cs) →
        o.query cs.challenge.user = .ok (some m) →
        o.getUserO cs.challenge.user = .error e →
        runO o (verifyChallengeProg ans) = .error e)) := by
  refine ⟨?_, ?_, ?_, fun h1 => ?_, fun m hq hw => ?_, fun h2 => ?_,
    fun m hq hw => ?_, fun h3 => ?_, fun cs hcs hq => ?_,
    fun cs m hcs hq hu => ?_⟩
  · cases hm : s.params.lookup reg.user <;>
      simp [registerProg, runT, hm, isRegistryRead, isStorageRead, isStorageWrite]
  · cases hm : s.params.lookup ch.user <;>
      simp [createChallengeProg, runT, hm, isRegistryRead, isStorageRead, isStorageWrite]
  · cases hch : get_challenge s.challenges ans.auth_id
    · simp [verifyChallengeProg, runT, hch, isRegistryRead, isStorageRead, isStorageWrite]
    · rename_i cs
      cases hm : s.params.lookup cs.challenge.user
      · simp [verifyChallengeProg, runT, hch, hm,
          isRegistryRead, isStorageRead, isStorageWrite]
      · rename_i m
        cases hu : get_user s.users cs.challenge.user <;>
          simp [verifyChallengeProg, runT, hch, hm, hu,
            isRegistryRead, isStorageRead, isStorageWrite]
  · simp [registerProg, runO, h1]
  · simp [registerProg, runO, hq, hw]
  · simp [createChallengeProg, runO, h2]
  · simp [createChallengeProg, runO, CP.Material.change, hq, hw]
  · simp [verifyChallengeProg, runO, h3]
  · simp [verifyChallengeProg, runO, hcs, hq]
  · simp [verifyChallengeProg, runO, hcs, hq, hu]

/-- Witness for C8 (amended): a first-call failure (all-failing
collaborators) and a later-call failure (reads succeed, the `store_user`
write fails) both propagate unchanged. -/
theorem verifier_effect_bounds_witness :
    (failingOracles.query "u" = .error "boom" ∧
      runO failingOracles (registerProg (Register.mk "u" 1 2)) = .error "boom") ∧
    (storeFailingOracles.query "u" = .ok (some (CP.Material.mk 4 3 11 23)) ∧
      storeFailingOracles.storeUserO (Register.mk "u" 1 2) = .error "disk full" ∧
      runO storeFailingOracles (registerProg (Register.mk "u" 1 2)) =
        .error "disk full") :=
  ⟨⟨rfl,
    (verifier_effect_bounds (VState.mk [] [] []) (Register.mk "u" 1 2)
      (Challenge.mk "u" 1 2) "a" 7 (Answer.mk "a" 3) failingOracles "boom").2.2.2.1 rfl⟩,
   ⟨rfl, rfl,
    (verifier_effect_bounds (VState.mk [] [] []) (Register.mk "u" 1 2)
      (Challenge.mk "u" 1 2) "a" 7 (Answer.mk "a" 3) storeFailingOracles
      "disk full").2.2.2.2.1 (CP.Material.mk 4 3 11 23) rfl rfl⟩⟩

/-- C9: `verify_challenge` never mutates storage — whatever its outcome,
the final state equals the initial one, so re-running it with the same
answer yields the same result (challenge records are not invalidated after
use). -/
theorem verify_challenge_no_mutation (ans : Answer) (s : VState) :
    (runT (verifyChallengeProg ans) s).2.1 = s ∧
    (runT (verifyChallengeProg ans) s).2.2.countP isStorageWrite = 0 ∧
    runT (verifyChallengeProg ans) (runT (verifyChallengeProg ans) s).2.1
      = runT (verifyChallengeProg ans) s := by
  have hstate : (runT (verifyChallengeProg ans) s).2.1 = s := by
    cases hch : get_challenge s.challenges ans.auth_id
    · simp [verifyChallengeProg, runT, hch]
    · rename_i cs
      cases hm : s.params.lookup cs.challenge.user
      · simp [verifyChallengeProg, runT, hch, hm]
      · rename_i m
        cases hu : get_user s.users cs.challenge.user <;>
          simp [verifyChallengeProg, runT, hch, hm, hu]
  have hwrites : (runT (verifyChallengeProg ans) s).2.2.countP isStorageWrite = 0 := by
    cases hch : get_challenge s.challenges ans.auth_id
    · simp [verifyChallengeProg, runT, hch, isStorageWrite]
    · rename_i cs
      cases hm : s.params.lookup cs.challenge.user
      · simp [verifyChallengeProg, runT, hch, hm, isStorageWrite]
      · rename_i m
        cases hu : get_user s.users cs.challenge.user <;>
          simp [verifyChallengeProg, runT, hch, hm, hu, isStorageWrite]
  exact ⟨hstate, hwrites, by rw [hstate]⟩


end Verifier
